import Mathlib

/-!
Verification of the ironclad type-hint matcher and predicate algebra
(src/ironclad/predicates/compile.py and src/ironclad/predicates/predicate.py),
as a shallow embedding: Python runtime values, the type-hint grammar the
matcher dispatches on, and the Predicate combinator class are translated into
executable Lean definitions, and the specified properties are settled against
them.
-/

set_option maxHeartbeats 1000000

namespace Ironclad

/-! ## Python runtime model -/

/-- The Python classes the matcher claims mention: builtin scalar and container
classes plus the abstract base classes from collections.abc that appear in the
container branch of the matcher. -/
inductive PyType where
  | int
  | bool
  | float
  | str
  | list
  | tuple
  | set
  | frozenset
  | noneType
  | seqABC      -- collections.abc.Sequence
  | setABC      -- collections.abc.Set
  | mutSeqABC   -- collections.abc.MutableSequence
deriving DecidableEq

/-- Python runtime values relevant to the claims: None, bools, ints, strings,
lists and tuples. -/
inductive PyVal where
  | none
  | bool (b : Bool)
  | int (n : Int)
  | str (s : String)
  | list (xs : List PyVal)
  | tuple (xs : List PyVal)

/-- The Python identity test x is None. -/
def isNoneVal : PyVal → Bool
  | .none => true
  | _ => false

/-- The exact runtime class of a value: Python type(x). -/
def typeOf : PyVal → PyType
  | .none => .noneType
  | .bool _ => .bool
  | .int _ => .int
  | .str _ => .str
  | .list _ => .list
  | .tuple _ => .tuple

/-- Python issubclass on the modelled classes: reflexive, plus the real
subclass edges bool <= int, list/tuple/str <= Sequence,
list <= MutableSequence, set/frozenset <= Set. -/
def pySubclass (s t : PyType) : Bool :=
  decide (s = t) ||
  match s, t with
  | .bool, .int => true
  | .list, .seqABC => true
  | .tuple, .seqABC => true
  | .str, .seqABC => true
  | .list, .mutSeqABC => true
  | .set, .setABC => true
  | .frozenset, .setABC => true
  | _, _ => false

/-- Python isinstance(x, t) for a single class t. -/
def pyIsinstance (x : PyVal) (t : PyType) : Bool :=
  pySubclass (typeOf x) t

/-- The element sequence produced by iterating a value: lists and tuples yield
their elements, strings yield their one-character substrings.  Scalars are not
iterable in Python; the matcher only iterates after a successful isinstance
check against a container class, so their value here is never reached there. -/
def pyElements : PyVal → List PyVal
  | .list xs => xs
  | .tuple xs => xs
  | .str s => s.data.map (fun c => PyVal.str (String.singleton c))
  | _ => []

/-! ## Type-hint grammar and enforcement options -/

/-- EnforceOptions from src/ironclad/types.py: a frozen three-flag
configuration. -/
structure EnforceOptions where
  allow_subclasses : Bool
  check_defaults : Bool
  strict_bools : Bool
deriving DecidableEq

/-- DEFAULT_ENFORCE_OPTIONS from src/ironclad/types.py: all three flags
default to True. -/
def DEFAULT_ENFORCE_OPTIONS : EnforceOptions :=
  { allow_subclasses := true, check_defaults := true, strict_bools := true }

/-- The container kinds of the homogeneous-collection branch of
_matches_collection_hint (compile.py line 76): list, set, frozenset,
Sequence, AbcSet, MutableSequence. -/
inductive ContainerKind where
  | list
  | set
  | frozenset
  | sequence
  | abcSet
  | mutableSequence
deriving DecidableEq

/-- The class object that get_origin returns for a subscripted container
hint of the given kind. -/
def containerClass : ContainerKind → PyType
  | .list => .list
  | .set => .set
  | .frozenset => .frozenset
  | .sequence => .seqABC
  | .abcSet => .setABC
  | .mutableSequence => .mutSeqABC

mutual
/-- The type-hint specifications the claims exercise, mirroring the shapes
matches_hint dispatches on: Any, None/NoneType, a bare class, a plain tuple
of classes (isinstance-style union), fixed and variadic tuple generics, and
homogeneous container generics. -/
inductive Hint where
  | any
  | noneHint
  | cls (t : PyType)
  | classTuple (ts : List PyType)
  | tupleFixed (args : HintList)
  | tupleVariadic (t : Hint)
  | containerOf (c : ContainerKind) (t : Hint)

/-- A list of hints (the arguments of a fixed tuple hint), kept as a mutual
inductive so the matcher recursion stays structural. -/
inductive HintList where
  | nil
  | cons (h : Hint) (t : HintList)
end

/-! ## The matcher (src/ironclad/predicates/compile.py) -/

/-- matches_hint specialized to a bare (non-generic) class hint, as reached
through _matches_normal (compile.py lines 94-106): for a bare class the
collection and typing branches fall through, isinstance(hint, type) is true,
so the allow_subclasses exact-type check and the strict-bools special case
apply before the plain isinstance check.  The TypeError fallback of
_matches_normal re-enters matches_hint with exactly such a bare origin
class. -/
def matchesBareClass (x : PyVal) (t : PyType) (opts : EnforceOptions) : Bool :=
  if !opts.allow_subclasses then decide (typeOf x = t)
  else if opts.strict_bools && decide (t = PyType.int) then decide (typeOf x = PyType.int)
  else pyIsinstance x t

/-- all(matches_hint(elem, ht, opts) for elem, ht in zip(x, args)): zip stops
at the shorter side (arity is checked separately before this runs). -/
def zipAllMatch : List (PyVal → EnforceOptions → Bool) → List PyVal → EnforceOptions → Bool
  | [], _, _ => true
  | _ :: _, [], _ => true
  | f :: fs, x :: xs, opts => f x opts && zipAllMatch fs xs opts

mutual
/-- matches_hint from compile.py (lines 135-160), curried on the hint so the
element recursion is structural.  Per hint shape: Any and None are handled
first; then _matches_collection_hint, then _matches_typing_hint (whose
type[T]/Annotated/Literal/Union/TypeVar branches never fire for the embedded
hint shapes, so it contributes false), then _matches_normal.  For subscripted
generics, isinstance(x, hint) in _matches_normal raises TypeError and the
except branch recurses on the bare origin class, i.e. matchesBareClass. -/
def hintCheck : Hint → PyVal → EnforceOptions → Bool
  | .any => fun _ _ => true
  | .noneHint => fun x _ => isNoneVal x
  | .cls t => fun x opts =>
      if t = PyType.noneType then isNoneVal x
      else matchesBareClass x t opts
  | .classTuple ts => fun x _ =>
      -- origin is None; a tuple of classes is not itself a type, so
      -- _matches_normal runs the plain isinstance(x, (t1, ..., tn)) check,
      -- bypassing the allow_subclasses and strict_bools special cases
      ts.any (fun t => pyIsinstance x t)
  | .tupleVariadic t =>
      let sub := hintCheck t
      fun x opts =>
        (match x with
         | .tuple xs => xs.all (fun e => sub e opts)
         | _ => false)
        || matchesBareClass x PyType.tuple opts
  | .tupleFixed args =>
      let subs := hintListCheck args
      fun x opts =>
        (match x with
         | .tuple xs => decide (xs.length = subs.length) && zipAllMatch subs xs opts
         | _ => false)
        || matchesBareClass x PyType.tuple opts
  | .containerOf c t =>
      let sub := hintCheck t
      fun x opts =>
        (pyIsinstance x (containerClass c) && (pyElements x).all (fun e => sub e opts))
        || matchesBareClass x (containerClass c) opts

/-- The checkers of a list of tuple-argument hints. -/
def hintListCheck : HintList → List (PyVal → EnforceOptions → Bool)
  | .nil => []
  | .cons h t => hintCheck h :: hintListCheck t
end

/-- matches_hint(x, hint, opts) with the source argument order. -/
def matches_hint (x : PyVal) (hint : Hint) (opts : EnforceOptions) : Bool :=
  hintCheck hint x opts

/-! ## Python str(), repr() and str.format model -/

/-- The exceptions str.format raises on the modelled subset. -/
inductive FmtError where
  | keyError     -- unknown named replacement field
  | indexError   -- positional or automatic replacement field with no positional args
  | valueError   -- malformed format string (unmatched brace)
deriving DecidableEq

def lbraceChar : Char := Char.ofNat 123

def rbraceChar : Char := Char.ofNat 125

def squoteChar : Char := Char.ofNat 39

mutual
/-- Python repr() on the modelled values. -/
def pyRepr : PyVal → String
  | .none => "None"
  | .bool b => if b then "True" else "False"
  | .int n => toString n
  | .str s => String.singleton squoteChar ++ s ++ String.singleton squoteChar
  | .list xs => "[" ++ pyReprJoin xs ++ "]"
  | .tuple xs =>
      "(" ++ pyReprJoin xs ++ (if xs.length = 1 then ",)" else ")")

/-- The comma-joined reprs of the elements of a container. -/
def pyReprJoin : List PyVal → String
  | [] => ""
  | [x] => pyRepr x
  | x :: rest => pyRepr x ++ ", " ++ pyReprJoin rest
end

/-- Python str() on the modelled values: like repr() except that a string is
returned unquoted. -/
def pyStr : PyVal → String
  | .str s => s
  | v => pyRepr v

/-- str() of the value bound to the replacement field, None included. -/
def pyStrOpt : Option PyVal → String
  | some v => pyStr v
  | Option.none => "None"

/-- Substitute one replacement field, as str.format(x=value) does with its
single keyword argument: the field x becomes str of the value; an empty or
numeric field is a positional/automatic lookup into the empty positional
arguments and raises IndexError; any other field name is a missing keyword
and raises KeyError.  Conversion and format-spec syntax is not modelled;
the repository messages use bare fields only. -/
def substField (x : Option PyVal) (f : List Char) : Except FmtError String :=
  if f = ['x'] then .ok (pyStrOpt x)
  else if f = [] || f.all Char.isDigit then .error .indexError
  else .error .keyError

mutual
/-- The scanning loop of str.format(x=value) over the template characters:
literal text is copied, doubled braces are escapes, a lone closing brace or
an unterminated opening brace raises ValueError, and a replacement field is
handed to fmtField. -/
def fmtScan (x : Option PyVal) : List Char → Except FmtError String
  | [] => .ok ""
  | c :: rest =>
      if c = lbraceChar then
        match rest with
        | [] => .error .valueError
        | c2 :: rest2 =>
            if c2 = lbraceChar then
              (fun t => String.singleton lbraceChar ++ t) <$> fmtScan x rest2
            else fmtField x [] (c2 :: rest2)
      else if c = rbraceChar then
        match rest with
        | [] => .error .valueError
        | c2 :: rest2 =>
            if c2 = rbraceChar then
              (fun t => String.singleton rbraceChar ++ t) <$> fmtScan x rest2
            else .error .valueError
      else (fun t => String.singleton c ++ t) <$> fmtScan x rest

/-- Collect the characters of a replacement field up to its closing brace,
then substitute it and resume scanning; a field the template never closes
raises ValueError. -/
def fmtField (x : Option PyVal) (acc : List Char) : List Char → Except FmtError String
  | [] => .error .valueError
  | c :: cs =>
      if c = rbraceChar then do
        let sub ← substField x acc.reverse
        let tail ← fmtScan x cs
        pure (sub ++ tail)
      else fmtField x (c :: acc) cs
end

/-- Python s.format(x=value) on the modelled subset. -/
def pyFormat (s : String) (x : Option PyVal) : Except FmtError String :=
  fmtScan x s.data

/-! ## The Predicate class (src/ironclad/predicates/predicate.py) -/

/-- The msg field of a predicate: a static string, or a message callable
(a callable may render other messages, so it can propagate a format error). -/
inductive Msg where
  | static (s : String)
  | dynamic (f : Option PyVal → Except FmtError String)

/-- Predicate: a test function, a name, a failure message and the lineage
context stack (predicate.py lines 26-66). -/
inductive Predicate where
  | mk (func : PyVal → Bool) (name : String) (msg : Msg) (context : List Predicate)

/-- The wrapped test function. -/
def Predicate.func : Predicate → PyVal → Bool
  | .mk f _ _ _ => f

/-- The name property. -/
def Predicate.name : Predicate → String
  | .mk _ n _ _ => n

/-- The msg property. -/
def Predicate.msg : Predicate → Msg
  | .mk _ _ m _ => m

/-- The context stack (oldest ancestor first). -/
def Predicate.context : Predicate → List Predicate
  | .mk _ _ _ c => c

/-- Predicate.__init__ (lines 45-66): msg defaults to the name, the context
starts empty. -/
def Predicate.make (func : PyVal → Bool) (name : String) (msg : Option Msg) : Predicate :=
  .mk func name (msg.getD (.static name)) []

/-- Predicate.__call__ (lines 69-78): bool(self.__func(x)); the embedded test
functions are already boolean valued. -/
def Predicate.call (p : Predicate) (x : PyVal) : Bool :=
  p.func x

/-- Predicate.render_msg (lines 104-121): a callable message is invoked with
the value; a static message is formatted with x=value, and only a KeyError
from the formatting is swallowed by returning the raw string. -/
def Predicate.render_msg (p : Predicate) (x : Option PyVal) : Except FmtError String :=
  match p.msg with
  | .dynamic f => f x
  | .static s =>
      match pyFormat s x with
      | .error .keyError => .ok s
      | r => r

/-- Predicate.__and__ (lines 267-280): short-circuit conjunction of the tests,
composed name and message, context empty. -/
def Predicate.and (p q : Predicate) : Predicate :=
  Predicate.make (fun x => p.call x && q.call x)
    (p.name ++ " & " ++ q.name)
    (some (.dynamic (fun x => do
      let a ← p.render_msg x
      let b ← q.render_msg x
      pure ("(" ++ a ++ ") and (" ++ b ++ ")"))))

/-- Predicate.__or__ (lines 284-297). -/
def Predicate.or (p q : Predicate) : Predicate :=
  Predicate.make (fun x => p.call x || q.call x)
    (p.name ++ " | " ++ q.name)
    (some (.dynamic (fun x => do
      let a ← p.render_msg x
      let b ← q.render_msg x
      pure ("(" ++ a ++ ") or (" ++ b ++ ")"))))

/-- Predicate.__invert__ (lines 301-311). -/
def Predicate.invert (p : Predicate) : Predicate :=
  Predicate.make (fun x => !p.call x)
    ("~" ++ p.name)
    (some (.dynamic (fun x => do
      let a ← p.render_msg x
      pure ("not (" ++ a ++ ")"))))

/-- Predicate.__xor__ (lines 315-324): derived as (self | other) & ~(self & other). -/
def Predicate.xor (p q : Predicate) : Predicate :=
  (p.or q).and ((p.and q).invert)

/-- Predicate.implies (lines 330-339): derived as (~self) | other. -/
def Predicate.implies (p q : Predicate) : Predicate :=
  (p.invert).or q

/-- Predicate.lift (lines 358-386): a None name copies the receiver name; the
new context is (*self.context, self). -/
def Predicate.lift (p : Predicate) (func : PyVal → Bool) (name : Option String)
    (msg : Msg) : Predicate :=
  .mk func (name.getD p.name) msg (p.context ++ [p])

/-- Predicate.on (lines 388-405): delegate the test through the getter; the
message renders over the extracted value (None stays None).  The result is
built by the plain constructor, so its context is empty. -/
def Predicate.on (p : Predicate) (getter : PyVal → PyVal) : Predicate :=
  Predicate.make (fun o => p.func (getter o)) p.name
    (some (.dynamic (fun o => p.render_msg (o.map getter))))

/-- Predicate.__msg_over_iter (lines 407-421): a static message is reused as
is; a callable message is wrapped to render over the first element of the
iterable (or None) behind the given message prelude. -/
def Predicate.msg_over_iter (p : Predicate) (pre : String) : Msg :=
  match p.msg with
  | .static s => .static s
  | .dynamic _ =>
      .dynamic (fun it => do
        let sample : Option PyVal :=
          match it with
          | Option.none => Option.none
          | some v => (pyElements v).head?
        let base ← p.render_msg sample
        pure (if pre ≠ "" then pre ++ base else base))

/-- Predicate.quantify (lines 423-447): lift to a predicate over iterables,
mapping the element test over the iterable (the generator expression of the
source) and handing the boolean sequence to the quantifier. -/
def Predicate.quantify (p : Predicate) (quantifier : List Bool → Bool)
    (label : String) (pre : String) : Predicate :=
  p.lift (fun i => quantifier ((pyElements i).map p.func))
    (some (label ++ "(" ++ p.name ++ ")"))
    (p.msg_over_iter pre)

/-- Predicate.all (lines 449-455). -/
def Predicate.all (p : Predicate) : Predicate :=
  p.quantify (fun bits => bits.all id) "all" "for every element: "

/-- Predicate.any (lines 457-463). -/
def Predicate.any (p : Predicate) : Predicate :=
  p.quantify (fun bits => bits.any id) "any" "for at least one element: "

/-- The counting loop of the at_least quantifier (lines 480-485): increment on
each accepted element and return True as soon as count >= n. -/
def at_least_loop (n : Int) (count : Int) : List Bool → Bool
  | [] => false
  | b :: rest =>
      let count2 := count + (if b then 1 else 0)
      if count2 ≥ n then true else at_least_loop n count2 rest

/-- The at_least quantifier (lines 475-485): size is len(bits) when bits is
Sized, else None; quantify always passes a generator expression, which is
never Sized, so every call site below passes None. -/
def at_least_quantifier (n : Int) (size : Option Int) (bits : List Bool) : Bool :=
  match size with
  | some s => if s < n then false else at_least_loop n 0 bits
  | Option.none => at_least_loop n 0 bits

/-- Predicate.at_least (lines 465-489).  No bound on n is validated. -/
def Predicate.at_least (p : Predicate) (n : Int) : Predicate :=
  p.quantify (fun bits => at_least_quantifier n Option.none bits)
    ("at least " ++ toString n) ("for at least " ++ toString n ++ " elements: ")

/-- The counting loop of the at_most quantifier (lines 501-507): return False
as soon as count >= n, True when the scan completes. -/
def at_most_loop (n : Int) (count : Int) : List Bool → Bool
  | [] => true
  | b :: rest =>
      let count2 := count + (if b then 1 else 0)
      if count2 ≥ n then false else at_most_loop n count2 rest

/-- The at_most quantifier (lines 501-507); it performs no Sized check. -/
def at_most_quantifier (n : Int) (bits : List Bool) : Bool :=
  at_most_loop n 0 bits

/-- Predicate.at_most (lines 491-511).  No bound on n is validated. -/
def Predicate.at_most (p : Predicate) (n : Int) : Predicate :=
  p.quantify (fun bits => at_most_quantifier n bits)
    ("at most " ++ toString n) ("for at most " ++ toString n ++ " elements: ")

/-- The counting loop of the exactly quantifier (lines 528-533): return False
as soon as count >= n, and compare count to n when the scan completes. -/
def exactly_loop (n : Int) (count : Int) : List Bool → Bool
  | [] => decide (count = n)
  | b :: rest =>
      let count2 := count + (if b then 1 else 0)
      if count2 ≥ n then false else exactly_loop n count2 rest

/-- The exactly quantifier (lines 523-533), with the same Sized handling as
at_least_quantifier. -/
def exactly_quantifier (n : Int) (size : Option Int) (bits : List Bool) : Bool :=
  match size with
  | some s => if s < n then false else exactly_loop n 0 bits
  | Option.none => exactly_loop n 0 bits

/-- Predicate.exactly (lines 513-537).  No bound on n is validated; the label
and the message prelude really say "at least" in the source. -/
def Predicate.exactly (p : Predicate) (n : Int) : Predicate :=
  p.quantify (fun bits => exactly_quantifier n Option.none bits)
    ("at least " ++ toString n) ("for at least " ++ toString n ++ " elements: ")

/-! ## validate and its exception model -/

/-- A constructor argument of a raised exception. -/
inductive ExcArg where
  | str (s : String)
  | val (v : PyVal)

/-- A raised exception: the exception class name and the arguments its
constructor received. -/
structure Raised where
  exc : String
  args : List ExcArg

/-- The exc parameter of validate: a plain exception class, or a
three-argument factory (label, value, message) -> exception. -/
inductive ExcSpec where
  | excType (name : String)
  | factory (f : String → PyVal → String → Raised)

/-- Everything validate can raise: a formatting error escaping render_msg, or
the exception built from the exc argument. -/
inductive PyError where
  | fmt (e : FmtError)
  | raised (r : Raised)

/-- Predicate.validate (lines 202-233).  callable(exc) is true for an
exception class as well as for a factory, so both variants take the
raise exc(label, x, message) branch; the raise exc(message) line of the
source is unreachable. -/
def Predicate.validate (p : Predicate) (x : PyVal) (label : String)
    (exc : ExcSpec) : Except PyError PyVal :=
  if !(p.call x) then
    match p.render_msg (some x) with
    | .error e => .error (.fmt e)
    | .ok rendered =>
        let message := label ++ ": " ++ rendered ++ " (got " ++ pyRepr x ++ ")"
        match exc with
        | .factory f => .error (.raised (f label x message))
        | .excType nm =>
            .error (.raised { exc := nm, args := [.str label, .val x, .str message] })
  else .ok x

/-! ## The test fixture predicate -/

/-- The is_pos helper from tests/predicates/test_predicate.py: x > 0, applied
to numbers (a bool compares as its integer value in Python). -/
def is_pos_func : PyVal → Bool
  | .int n => decide (0 < n)
  | .bool b => b
  | _ => false

/-- Predicate(is_pos, "is positive"): the fixture the quantifier and validate
examples run against. -/
def is_positive : Predicate :=
  Predicate.make is_pos_func "is positive" Option.none

end Ironclad


namespace Ironclad

/-! ## The claims -/

/-- C1 (counterexample): the claim asserts
matches([1,"x",3], Sequence[int], opts) == false; on the code the failed
collection check falls through to _matches_normal, isinstance against the
subscripted generic raises TypeError, and the fallback instance check against
the bare origin class collections.abc.Sequence accepts the list, so the call
returns true. -/
theorem C1_container_matching_counterexample :
    matches_hint (.list [.int 1, .str "x", .int 3])
      (.containerOf .sequence (.cls .int)) DEFAULT_ENFORCE_OPTIONS = true := by
  decide

/-- C1 (amended): matches(value, Container[T], opts) is true iff the value is
an instance of the named container kind and every element recursively matches
T, or the bare-origin fallback instance check of _matches_normal accepts the
value; consequently matches([1,"x",3], Sequence[int], opts) == true and
matches((1,), Tuple[int,str], opts) == true under the default options, not
false as the claim states. -/
theorem C1_container_matching_amended :
    (∀ (x : PyVal) (c : ContainerKind) (t : Hint) (opts : EnforceOptions),
      matches_hint x (.containerOf c t) opts = true ↔
        ((pyIsinstance x (containerClass c) = true ∧
          ∀ e ∈ pyElements x, matches_hint e t opts = true) ∨
         matchesBareClass x (containerClass c) opts = true)) ∧
    matches_hint (.list [.int 1, .str "x", .int 3])
      (.containerOf .sequence (.cls .int)) DEFAULT_ENFORCE_OPTIONS = true ∧
    matches_hint (.tuple [.int 1])
      (.tupleFixed (.cons (.cls .int) (.cons (.cls .str) .nil)))
      DEFAULT_ENFORCE_OPTIONS = true := by
  refine ⟨?_, by decide, by decide⟩
  intro x c t opts
  simp [matches_hint, hintCheck, Bool.or_eq_true, Bool.and_eq_true,
    List.all_eq_true]

/-- C2 (code bug): the claim, the spec, the docstring of Predicate.exactly and
the repository test test_exactly all say exactly(2)([0,0,1,1]) accepts, but
the quantifier loop returns False as soon as count >= n (instead of count > n),
so a scan that reaches exactly n accepted elements is rejected; the second
example of the claim happens to agree with the code. -/
theorem C2_exactly_eval :
    (is_positive.exactly 2).call (.list [.int 0, .int 0, .int 1, .int 1]) = false ∧
    (is_positive.exactly 2).call (.list [.int 1, .int 1, .int 1, .int 1]) = false :=
  ⟨rfl, rfl⟩

/-- C3 (code bug): validate builds the documented message, but because
callable(exc) is also true when exc is a plain exception class, the class is
always invoked with the three factory arguments (label, value, message) and
never with the message alone; the three-argument factory half of the claim
does hold. -/
theorem C3_validate_eval :
    is_positive.validate (.int 1) "value" (.excType "ValueError") = .ok (.int 1) ∧
    is_positive.validate (.int (-1)) "value" (.excType "ValueError") =
      .error (.raised (Raised.mk "ValueError"
        [.str "value", .val (.int (-1)), .str "value: is positive (got -1)"])) ∧
    is_positive.validate (.int (-1)) "my_value"
      (.factory (fun label x message => Raised.mk "RuntimeError"
        [.str label, .val x, .str message])) =
      .error (.raised (Raised.mk "RuntimeError"
        [.str "my_value", .val (.int (-1)), .str "my_value: is positive (got -1)"])) :=
  ⟨rfl, rfl, rfl⟩

/-- C4 (code bug): the claim, the docstring of Predicate.at_most and the
repository test test_at_most accept an iterable with exactly n accepted
elements, but the quantifier loop returns False as soon as count >= n
(instead of count > n), so such an iterable is rejected. -/
theorem C4_at_most_eval :
    (is_positive.at_most 2).call (.list [.int 0, .int 1, .int 2]) = false ∧
    (is_positive.at_most 1).call (.list [.int 0, .int 1]) = false :=
  ⟨rfl, rfl⟩

/-- C5 (code bug): at_least, at_most and exactly perform no validation of n
at all, so a negative n is accepted silently at construction time and the
resulting predicates simply evaluate, contradicting the spec and the
repository tests, which expect a ValueError at construction; the three
evaluations below run the predicates built from n = -10. -/
theorem C5_negative_bound_eval :
    (is_positive.at_least (-10)).call (.list []) = false ∧
    (is_positive.at_most (-10)).call (.list [.int 1]) = false ∧
    (is_positive.exactly (-10)).call (.list []) = false :=
  ⟨rfl, rfl, rfl⟩

/-- C6 (counterexample): the claim asserts that P.on(g) has context
(*P.context, P); on the code, on builds its result with the plain constructor
and never calls _set_context, so its context is empty while the claim demands
a one-element context for the fixture predicate. -/
theorem C6_on_context_counterexample :
    (is_positive.on (fun o => o)).context ≠ is_positive.context ++ [is_positive] := by
  intro h
  simp [Predicate.on, Predicate.make, Predicate.context, is_positive] at h

/-- C6 (amended): P.on(g) starts with an empty lineage context, unlike lift
(and the quantifiers built on it), which sets the derived context to
(*P.context, P). -/
theorem C6_on_context_amended :
    ∀ (p : Predicate) (getter : PyVal → PyVal),
      (p.on getter).context = [] ∧
      ∀ (f : PyVal → Bool) (nm : Option String) (m : Msg),
        (p.lift f nm m).context = p.context ++ [p] :=
  fun _ _ => ⟨rfl, fun _ _ _ => rfl⟩

/-- C7: the predicate algebra laws: conjunction, disjunction, negation,
exclusive or and implication of predicates evaluate pointwise as the
corresponding boolean connectives. -/
theorem C7_algebra_laws :
    ∀ (p q : Predicate) (v : PyVal),
      (p.and q).call v = (p.call v && q.call v) ∧
      (p.or q).call v = (p.call v || q.call v) ∧
      (p.invert).call v = (!p.call v) ∧
      (p.xor q).call v = (p.call v != q.call v) ∧
      (p.implies q).call v = (!p.call v || q.call v) := by
  intro p q v
  refine ⟨rfl, rfl, rfl, ?_, rfl⟩
  show ((p.call v || q.call v) && !(p.call v && q.call v)) = (p.call v != q.call v)
  cases p.call v <;> cases q.call v <;> rfl

/-- C8: with the spec being exactly the int class, any options with
strict_bools = true reject the boolean True (the exact runtime type must be
int), while the default options with strict_bools = false accept it via the
ordinary subclass-admitting instance check. -/
theorem C8_strict_bools :
    (∀ opts : EnforceOptions, opts.strict_bools = true →
      matches_hint (.bool true) (.cls .int) opts = false) ∧
    matches_hint (.bool true) (.cls .int)
      { allow_subclasses := true, check_defaults := true, strict_bools := false } =
      true := by
  refine ⟨?_, by decide⟩
  intro opts h
  rcases opts with ⟨a, cd, sb⟩
  revert h
  cases a <;> cases cd <;> cases sb <;> decide

/-- C8 witness: the first half of C8_strict_bools applied at the default
options, whose strict_bools flag is true. -/
theorem C8_strict_bools_witness :
    DEFAULT_ENFORCE_OPTIONS.strict_bools = true ∧
    matches_hint (.bool true) (.cls .int) DEFAULT_ENFORCE_OPTIONS = false :=
  ⟨rfl, C8_strict_bools.1 DEFAULT_ENFORCE_OPTIONS rfl⟩

/-- C9 (counterexample): the claim asserts render_msg never raises for a
static message string even with a malformed placeholder token; the code only
swallows KeyError, and a lone opening brace makes str.format raise
ValueError, which propagates. -/
theorem C9_render_msg_counterexample :
    (Predicate.make (fun _ => true) "p" (some (.static "\x7b"))).render_msg
      (some (.int 0)) = .error .valueError :=
  rfl

/-- C9 (amended): for a predicate with a static message string, render_msg
swallows exactly the missing-placeholder KeyError by returning the raw string
unchanged, passes successful formats through, and lets a malformed-placeholder
ValueError propagate. -/
theorem C9_render_msg_amended :
    ∀ (fn : PyVal → Bool) (nm s : String) (x : Option PyVal),
      (pyFormat s x = .error .keyError →
        (Predicate.make fn nm (some (.static s))).render_msg x = .ok s) ∧
      (∀ out, pyFormat s x = .ok out →
        (Predicate.make fn nm (some (.static s))).render_msg x = .ok out) ∧
      (pyFormat s x = .error .valueError →
        (Predicate.make fn nm (some (.static s))).render_msg x = .error .valueError) := by
  intro fn nm s x
  refine ⟨fun h => ?_, fun out h => ?_, fun h => ?_⟩ <;>
    simp [Predicate.render_msg, Predicate.make, Predicate.msg, h]

/-- C9 witness: the amended theorem applied to the message "{y}" (written with
escaped braces), whose formatting raises KeyError, so the raw string comes
back unchanged. -/
theorem C9_render_msg_amended_witness :
    pyFormat "\x7by\x7d" (some (.int 0)) = .error .keyError ∧
    (Predicate.make (fun _ => true) "nm" (some (.static "\x7by\x7d"))).render_msg
      (some (.int 0)) = .ok "\x7by\x7d" :=
  ⟨rfl, (C9_render_msg_amended (fun _ => true) "nm" "\x7by\x7d" (some (.int 0))).1 rfl⟩

/-- C10: a tuple-of-types spec such as (int, float) is not itself a class, so
_matches_normal skips the strict-bools special case and runs the ordinary
isinstance check, which accepts True against int for every option
configuration. -/
theorem C10_class_tuple_bypasses_strict_bools :
    ∀ opts : EnforceOptions,
      matches_hint (.bool true) (.classTuple [.int, .float]) opts = true :=
  fun _ => rfl

end Ironclad
